import Mathlib

/-!
Shallow embedding of the bloom renderer's resource layer and compute
scheduler (Rust sources under src/), with theorems checking the
natural-language specification against the code.

Conventions: machine integers (u32/u64/usize) are embedded as Nat; the
arithmetic below never approaches 2^32, so no wrap-around modelling is
needed (each packed word is shown < 2^32 where relevant).  External
collaborators (the Vulkan driver and the gpu_alloc crate) are modelled
at their interface, as noted on each definition.
-/

namespace VulkanBloom

/-- Embedding of ash's vk::Extent2D (width/height in texels). -/
structure Extent2D where
  width : Nat
  height : Nat
deriving DecidableEq, Repr

/-- Embedding of ash's vk::Extent3D. -/
structure Extent3D where
  width : Nat
  height : Nat
  depth : Nat
deriving DecidableEq, Repr

/-- Embedding of the group-count computation of the function `dispach`
in src/bloom.rs (lines 76-103): group_x = width/8, group_y = height/4,
each incremented by one when the corresponding remainder is nonzero;
the dispatch is issued as (group_x, group_y, 1). -/
def dispach (image_size : Extent2D) : Nat × Nat × Nat :=
  let group_x := image_size.width / 8
  let group_y := image_size.height / 4
  let group_x := if image_size.width % 8 ≠ 0 then group_x + 1 else group_x
  let group_y := if image_size.height % 4 ≠ 0 then group_y + 1 else group_y
  (group_x, group_y, 1)

/-- C3: the compute grid computed before a bloom dispatch is exactly
(ceil(w/8), ceil(h/4), 1), where ceil(w/8) = (w+7)/8 in natural-number
arithmetic; moreover the ceiling equals w/8 plus one exactly when w is
not a multiple of 8, and likewise h/4 rounded up at 4. -/
theorem dispatch_grid_is_ceil (w h : Nat) :
    dispach ⟨w, h⟩ = ((w + 7) / 8, (h + 3) / 4, 1)
    ∧ (w + 7) / 8 = w / 8 + (if w % 8 = 0 then 0 else 1)
    ∧ (h + 3) / 4 = h / 4 + (if h % 4 = 0 then 0 else 1) := by
  have hd : dispach ⟨w, h⟩
      = (if w % 8 ≠ 0 then w / 8 + 1 else w / 8,
         if h % 4 ≠ 0 then h / 4 + 1 else h / 4, 1) := rfl
  refine ⟨?_, ?_, ?_⟩
  · rw [hd, Prod.mk.injEq, Prod.mk.injEq]
    refine ⟨?_, ?_, rfl⟩ <;> split_ifs <;> omega
  · split_ifs <;> omega
  · split_ifs <;> omega

/-- Helper mirroring the halving loop of `get_mip_size` in src/bloom.rs
(lines 66-74): `n` iterations, each replacing (w, h) by (w/2, h/2). -/
def halveTimes : Nat → Nat → Nat → Nat × Nat
  | 0, w, h => (w, h)
  | n + 1, w, h => halveTimes n (w / 2) (h / 2)

/-- Embedding of `get_mip_size` in src/bloom.rs: starting from the
image's base extent, width and height are each divided by two once per
mip step, `current_mip` times, and returned as an Extent2D. -/
def get_mip_size (current_mip : Nat) (image_extent : Extent3D) : Extent2D :=
  let wh := halveTimes current_mip image_extent.width image_extent.height
  ⟨wh.1, wh.2⟩

/-- Mip count of the bloom chain, src/bloom.rs line 7. -/
def BLOOM_MIP_COUNT : Nat := 7

theorem halveTimes_eq (n w h : Nat) : halveTimes n w h = (w / 2 ^ n, h / 2 ^ n) := by
  induction n generalizing w h with
  | zero => simp [halveTimes]
  | succ k ih =>
      rw [halveTimes, ih]
      have hw : w / 2 / 2 ^ k = w / 2 ^ (k + 1) := by
        rw [Nat.div_div_eq_div_mul, ← pow_succ']
      have hh : h / 2 / 2 ^ k = h / 2 ^ (k + 1) := by
        rw [Nat.div_div_eq_div_mul, ← pow_succ']
      rw [hw, hh]

/-- C8: get_mip_size halves the base width and height `i` times by
integer division, i.e. divides them by 2^i; in particular at mip
BLOOM_MIP_COUNT - 1 = 6 the extent is the base extent right-shifted 6
times. -/
theorem mip_size_halving (i : Nat) (e : Extent3D) :
    get_mip_size i e = ⟨e.width / 2 ^ i, e.height / 2 ^ i⟩
    ∧ get_mip_size (BLOOM_MIP_COUNT - 1) e
        = ⟨e.width >>> (BLOOM_MIP_COUNT - 1), e.height >>> (BLOOM_MIP_COUNT - 1)⟩ := by
  constructor
  · simp [get_mip_size, halveTimes_eq]
  · simp [get_mip_size, halveTimes_eq, Nat.shiftRight_eq_div_pow]

/-- Embedding of the size-adjustment branch of Buffer::new in
src/vulkan_engine/buffer.rs (lines 44-51, compiled under
cfg(debug_assertions), i.e. the development profile the spec
describes): when the usage flags contain UNIFORM_BUFFER and the
requested size is not a multiple of 64, a warning is printed and the
size becomes size - size % 64 + 64; otherwise the size is kept.  The
returned Bool records whether the warning was printed; the function is
total (never an error). -/
def uniform_buffer_size (usage_has_uniform : Bool) (size : Nat) : Nat × Bool :=
  if usage_has_uniform = true ∧ size % 64 ≠ 0 then
    (size - size % 64 + 64, true)
  else
    (size, false)

/-- C4: for uniform usage the realized logical size is the smallest
multiple of 64 that is ≥ the requested size S (pinned uniquely by:
divisible by 64, ≥ S, and < S + 64), a size that is already a multiple
of 64 is kept as is, and the adjustment is signalled by a warning
(never an error: the function always returns a size). -/
theorem uniform_size_rounding (S : Nat) :
    (uniform_buffer_size true S).1 % 64 = 0
    ∧ S ≤ (uniform_buffer_size true S).1
    ∧ (uniform_buffer_size true S).1 < S + 64
    ∧ uniform_buffer_size true (64 * S) = (64 * S, false)
    ∧ (uniform_buffer_size true S).2 = decide (S % 64 ≠ 0) := by
  unfold uniform_buffer_size
  refine ⟨?_, ?_, ?_, ?_, ?_⟩ <;> split_ifs <;> simp_all <;> omega

/-- Dispatch-mode constants, src/bloom.rs lines 8-12. -/
def MODE_PREFILTER : Nat := 0

/-- Dispatch-mode constant for the downsample stage. -/
def MODE_DOWNSAMPLE : Nat := 1

/-- Dispatch-mode constant for the first upsample dispatch. -/
def MODE_UPSAMPLE_FIRST : Nat := 2

/-- Dispatch-mode constant for the descending upsample dispatches. -/
def MODE_UPSAMPLE : Nat := 3

/-- Dispatch-mode constant for the final composite dispatch. -/
def MODE_APPLY : Nat := 4

/-- Stage tag naming which part of the `bloom` function in src/bloom.rs
issued a dispatch. -/
inductive Stage
  | PREFILTER
  | DOWNSAMPLE
  | UPSAMPLE_FIRST
  | UPSAMPLE
  | APPLY
deriving DecidableEq, Repr

/-- Record of one compute dispatch issued by `bloom` (src/bloom.rs lines
105-300): the stage, the five field values the source packs into the
push-constant word (mode, source mip a.k.a. lod, source image index,
destination image index, destination-is-bloom flag), and `word`, the
packed value exactly as the source expression builds it. -/
structure DispatchRec where
  stage : Stage
  mode : Nat
  lod : Nat
  input : Nat
  output : Nat
  to_bloom : Nat
  word : Nat
deriving DecidableEq, Repr

/-- Packing shape shared by every word assignment in src/bloom.rs:
mode << 28 | lod << 21 | input << 14 | output << 7 | to_bloom. -/
def encodeWord (mode lod input output to_bloom : Nat) : Nat :=
  mode <<< 28 ||| lod <<< 21 ||| input <<< 14 ||| output <<< 7 ||| to_bloom

/-- Field recovery by shifting and masking at bit positions 28/21/14/7/0
with widths 4/7/7/7/7, as the compute shader decodes the word. -/
def decodeWord (w : Nat) : Nat × Nat × Nat × Nat × Nat :=
  (w >>> 28 &&& 15, w >>> 21 &&& 127, w >>> 14 &&& 127, w >>> 7 &&& 127, w &&& 127)

/-- Prefilter dispatch, src/bloom.rs line 156. -/
def prefilterDispatch : DispatchRec :=
  { stage := Stage.PREFILTER, mode := MODE_PREFILTER, lod := 0, input := 3,
    output := 0, to_bloom := 0,
    word := MODE_PREFILTER <<< 28 ||| 0 <<< 21 ||| 3 <<< 14 ||| 0 <<< 7 ||| 0 }

/-- Ping and pong downsample dispatches for mip level `i`, src/bloom.rs
lines 190-218. -/
def downsamplePass (i : Nat) : List DispatchRec :=
  [{ stage := Stage.DOWNSAMPLE, mode := MODE_DOWNSAMPLE, lod := i - 1, input := 0,
     output := 1 * BLOOM_MIP_COUNT + i, to_bloom := 0,
     word := MODE_DOWNSAMPLE <<< 28 ||| (i - 1) <<< 21 ||| 0 <<< 14
               ||| (1 * BLOOM_MIP_COUNT + i) <<< 7 ||| 0 },
   { stage := Stage.DOWNSAMPLE, mode := MODE_DOWNSAMPLE, lod := i, input := 1,
     output := 0 * BLOOM_MIP_COUNT + i, to_bloom := 0,
     word := MODE_DOWNSAMPLE <<< 28 ||| i <<< 21 ||| 1 <<< 14
               ||| (0 * BLOOM_MIP_COUNT + i) <<< 7 ||| 0 }]

/-- First upsample dispatch, src/bloom.rs lines 224-227. -/
def upsampleFirstDispatch : DispatchRec :=
  { stage := Stage.UPSAMPLE_FIRST, mode := MODE_UPSAMPLE_FIRST,
    lod := BLOOM_MIP_COUNT - 2, input := 0, output := 3 * BLOOM_MIP_COUNT - 1,
    to_bloom := 0,
    word := MODE_UPSAMPLE_FIRST <<< 28 ||| (BLOOM_MIP_COUNT - 2) <<< 21
              ||| 0 <<< 14 ||| (3 * BLOOM_MIP_COUNT - 1) <<< 7 ||| 0 }

/-- Descending upsample dispatch for mip level `i`, src/bloom.rs lines
245-248. -/
def upsamplePass (i : Nat) : DispatchRec :=
  { stage := Stage.UPSAMPLE, mode := MODE_UPSAMPLE, lod := i, input := 0,
    output := 2 * BLOOM_MIP_COUNT + i, to_bloom := 2,
    word := MODE_UPSAMPLE <<< 28 ||| i <<< 21 ||| 0 <<< 14
              ||| (2 * BLOOM_MIP_COUNT + i) <<< 7 ||| 2 }

/-- Final apply dispatch, src/bloom.rs lines 264-265. -/
def applyDispatch : DispatchRec :=
  { stage := Stage.APPLY, mode := MODE_APPLY, lod := 0, input := 3,
    output := 3 * BLOOM_MIP_COUNT, to_bloom := 2,
    word := MODE_APPLY <<< 28 ||| 0 <<< 21 ||| 3 <<< 14
              ||| (3 * BLOOM_MIP_COUNT) <<< 7 ||| 2 }

/-- Per-frame trace of the compute dispatches recorded by `bloom`
(src/bloom.rs lines 105-300), in source order: the prefilter, then for
each mip level i in 1..BLOOM_MIP_COUNT a ping and a pong downsample,
then the first upsample, then one upsample per level i from
BLOOM_MIP_COUNT-2 down to 0, then the apply.  The trace does not
depend on the frame index. -/
def bloomDispatches : List DispatchRec :=
  [prefilterDispatch]
    ++ (((List.range (BLOOM_MIP_COUNT - 1)).map fun k => k + 1).flatMap downsamplePass)
    ++ [upsampleFirstDispatch]
    ++ ((List.range (BLOOM_MIP_COUNT - 1)).reverse.map upsamplePass)
    ++ [applyDispatch]

/-- Decidable per-dispatch check used to settle C2 on the concrete
trace. -/
def checkRec (d : DispatchRec) : Bool :=
  decide (d.mode < 2 ^ 4) && decide (d.lod < 2 ^ 7) && decide (d.input < 2 ^ 7)
    && decide (d.output < 2 ^ 7) && decide (d.to_bloom < 2 ^ 7)
    && decide (d.word = encodeWord d.mode d.lod d.input d.output d.to_bloom)
    && decide (d.word < 2 ^ 32)
    && decide (decodeWord d.word = (d.mode, d.lod, d.input, d.output, d.to_bloom))

/-- C1 (amended): the dispatch trace is, in order, one PREFILTER, then
2*(N-1) DOWNSAMPLE dispatches (ping and pong per level 1..N-1), then
the UPSAMPLE_FIRST dispatch, then N-1 descending UPSAMPLE dispatches,
then one APPLY - so the upsample stage issues N dispatches in total
(not N-1) when UPSAMPLE_FIRST is counted together with the descending
UPSAMPLE dispatches. -/
theorem bloom_dispatch_order :
    bloomDispatches.map DispatchRec.stage
      = [Stage.PREFILTER]
        ++ List.replicate (2 * (BLOOM_MIP_COUNT - 1)) Stage.DOWNSAMPLE
        ++ [Stage.UPSAMPLE_FIRST]
        ++ List.replicate (BLOOM_MIP_COUNT - 1) Stage.UPSAMPLE
        ++ [Stage.APPLY]
    ∧ (bloomDispatches.countP
        fun d => d.stage == Stage.UPSAMPLE_FIRST || d.stage == Stage.UPSAMPLE)
        = BLOOM_MIP_COUNT := by
  decide

/-- C1 counterexample: counting the UPSAMPLE_FIRST dispatch together
with the descending UPSAMPLE dispatches, the code issues
BLOOM_MIP_COUNT = 7 upsample dispatches per frame, not
BLOOM_MIP_COUNT - 1 = 6 as the claim states. -/
theorem upsample_dispatch_count_counterexample :
    ¬ (bloomDispatches.countP
        fun d => d.stage == Stage.UPSAMPLE_FIRST || d.stage == Stage.UPSAMPLE)
        = BLOOM_MIP_COUNT - 1 := by
  decide

/-- C2: every dispatch in the per-frame trace carries a word built as
(mode << 28) | (lod << 21) | (input << 14) | (output << 7) | to_bloom
from fields within their declared widths (mode below 2^4, the others
below 2^7), the word fits in 32 bits, and shifting and masking at bit
positions 28/21/14/7/0 recovers exactly the five field values the
scheduler packed. -/
theorem packed_word_roundtrip (d : DispatchRec) (hd : d ∈ bloomDispatches) :
    d.mode < 2 ^ 4 ∧ d.lod < 2 ^ 7 ∧ d.input < 2 ^ 7 ∧ d.output < 2 ^ 7
      ∧ d.to_bloom < 2 ^ 7
      ∧ d.word = encodeWord d.mode d.lod d.input d.output d.to_bloom
      ∧ d.word < 2 ^ 32
      ∧ decodeWord d.word = (d.mode, d.lod, d.input, d.output, d.to_bloom) := by
  have hall : bloomDispatches.all checkRec = true := by decide
  have hc : checkRec d = true := List.all_eq_true.mp hall d hd
  simp only [checkRec, Bool.and_eq_true, decide_eq_true_eq] at hc
  exact ⟨hc.1.1.1.1.1.1.1, hc.1.1.1.1.1.1.2, hc.1.1.1.1.1.2, hc.1.1.1.1.2,
    hc.1.1.1.2, hc.1.1.2, hc.1.2, hc.2⟩

/-- Witness for C2: the theorem applied to the prefilter dispatch of
the trace. -/
theorem packed_word_roundtrip_witness :
    prefilterDispatch.mode < 2 ^ 4 ∧ prefilterDispatch.lod < 2 ^ 7
      ∧ prefilterDispatch.input < 2 ^ 7 ∧ prefilterDispatch.output < 2 ^ 7
      ∧ prefilterDispatch.to_bloom < 2 ^ 7
      ∧ prefilterDispatch.word
          = encodeWord prefilterDispatch.mode prefilterDispatch.lod
              prefilterDispatch.input prefilterDispatch.output
              prefilterDispatch.to_bloom
      ∧ prefilterDispatch.word < 2 ^ 32
      ∧ decodeWord prefilterDispatch.word
          = (prefilterDispatch.mode, prefilterDispatch.lod, prefilterDispatch.input,
             prefilterDispatch.output, prefilterDispatch.to_bloom) :=
  packed_word_roundtrip prefilterDispatch (by decide)

/-- Teardown step performed by the Drop implementations in
src/vulkan_engine/image.rs (lines 30-49) and
src/vulkan_engine/buffer.rs (lines 21-32). -/
inductive TeardownEvent
  | destroySampler
  | destroyMipView (i : Nat)
  | destroyDefaultView
  | deallocBlock
  | destroyImageHandle
  | destroyBufferHandle
deriving DecidableEq, Repr

/-- Embedding of `impl Drop for Image` (src/vulkan_engine/image.rs lines
30-49) as the sequence of teardown steps it performs, parametrized by
whether a sampler is present (`image_sampler` is Some) and by the
subresource range's level count (the loop bound of the mip-view
destruction loop). -/
def imageDropTrace (has_sampler : Bool) (level_count : Nat) : List TeardownEvent :=
  (if has_sampler then [TeardownEvent.destroySampler] else [])
    ++ (List.range level_count).map TeardownEvent.destroyMipView
    ++ [TeardownEvent.destroyDefaultView, TeardownEvent.deallocBlock,
        TeardownEvent.destroyImageHandle]

/-- Embedding of `impl Drop for Buffer` (src/vulkan_engine/buffer.rs
lines 21-32): the memory block is deallocated, then the buffer handle
is destroyed. -/
def bufferDropTrace : List TeardownEvent :=
  [TeardownEvent.deallocBlock, TeardownEvent.destroyBufferHandle]

/-- C6: in the Image teardown trace the memory block is returned to the
allocator strictly before the image handle is destroyed (the dealloc
sits at the second-to-last position, each occurring exactly once, with
the handle destruction last), everything before the dealloc is exactly
the sampler (when present), the mip views in order and the default
view, and the Buffer teardown deallocates its block strictly before
destroying the buffer handle. -/
theorem teardown_order (has_sampler : Bool) (level_count : Nat) :
    (imageDropTrace has_sampler level_count).length
        = (if has_sampler then 1 else 0) + level_count + 3
    ∧ (imageDropTrace has_sampler level_count).getLast?
        = some TeardownEvent.destroyImageHandle
    ∧ (imageDropTrace has_sampler level_count).count TeardownEvent.destroyImageHandle = 1
    ∧ (imageDropTrace has_sampler level_count)[(if has_sampler then 1 else 0) + level_count + 1]?
        = some TeardownEvent.deallocBlock
    ∧ (imageDropTrace has_sampler level_count).count TeardownEvent.deallocBlock = 1
    ∧ (imageDropTrace has_sampler level_count).take
          ((if has_sampler then 1 else 0) + level_count + 1)
        = (if has_sampler then [TeardownEvent.destroySampler] else [])
            ++ (List.range level_count).map TeardownEvent.destroyMipView
            ++ [TeardownEvent.destroyDefaultView]
    ∧ bufferDropTrace.length = 2
    ∧ bufferDropTrace[0]? = some TeardownEvent.deallocBlock
    ∧ bufferDropTrace[1]? = some TeardownEvent.destroyBufferHandle
    ∧ bufferDropTrace.count TeardownEvent.deallocBlock = 1
    ∧ bufferDropTrace.count TeardownEvent.destroyBufferHandle = 1 := by
  have hsplit : imageDropTrace has_sampler level_count
      = ((if has_sampler then [TeardownEvent.destroySampler] else [])
          ++ (List.range level_count).map TeardownEvent.destroyMipView
          ++ [TeardownEvent.destroyDefaultView])
        ++ [TeardownEvent.deallocBlock, TeardownEvent.destroyImageHandle] := by
    cases has_sampler <;> simp [imageDropTrace]
  have hlen : ((if has_sampler then [TeardownEvent.destroySampler] else [])
          ++ (List.range level_count).map TeardownEvent.destroyMipView
          ++ [TeardownEvent.destroyDefaultView]).length
      = (if has_sampler then 1 else 0) + level_count + 1 := by
    cases has_sampler
    · simp
    · simp
      omega
  refine ⟨?_, ?_, ?_, ?_, ?_, ?_, by decide, by decide, by decide, by decide, by decide⟩
  · rw [hsplit, List.length_append, hlen]
    simp
  · rw [hsplit,
      show [TeardownEvent.deallocBlock, TeardownEvent.destroyImageHandle]
          = [TeardownEvent.deallocBlock] ++ [TeardownEvent.destroyImageHandle] from rfl,
      ← List.append_assoc]
    exact List.getLast?_concat _
  · rw [hsplit, List.count_append]
    have h0 : (((if has_sampler then [TeardownEvent.destroySampler] else [])
          ++ (List.range level_count).map TeardownEvent.destroyMipView
          ++ [TeardownEvent.destroyDefaultView])).count TeardownEvent.destroyImageHandle
        = 0 := by
      cases has_sampler <;> simp [List.count_eq_zero, List.mem_append, List.mem_map]
    rw [h0]
    decide
  · rw [hsplit, List.getElem?_append_right (le_of_eq hlen), hlen]
    simp
  · rw [hsplit, List.count_append]
    have h0 : (((if has_sampler then [TeardownEvent.destroySampler] else [])
          ++ (List.range level_count).map TeardownEvent.destroyMipView
          ++ [TeardownEvent.destroyDefaultView])).count TeardownEvent.deallocBlock
        = 0 := by
      cases has_sampler <;> simp [List.count_eq_zero, List.mem_append, List.mem_map]
    rw [h0]
    decide
  · rw [hsplit, ← hlen]
    exact List.take_left _ _

/-- Embedding of ash's vk::ImageLayout restricted to the layouts the
sources mention. -/
inductive ImageLayout
  | UNDEFINED
  | GENERAL
  | PRESENT_SRC_KHR
  | TRANSFER_SRC_OPTIMAL
  | TRANSFER_DST_OPTIMAL
  | COLOR_ATTACHMENT_OPTIMAL
  | DEPTH_STENCIL_ATTACHMENT_OPTIMAL
  | SHADER_READ_ONLY_OPTIMAL
deriving DecidableEq, Repr

/-- Layout state touched by Image::write_from_image
(src/vulkan_engine/image.rs lines 417-502): the GPU-side layout of the
source image, the GPU-side layout of the destination image, and the
destination Image's current_layout field. -/
structure LayoutState where
  src_layout : ImageLayout
  dst_layout : ImageLayout
  dst_current_layout : ImageLayout
deriving DecidableEq, Repr

/-- Embedding of Image::change_image_layout (src/vulkan_engine/image.rs
lines 230-260) as used on the destination image: the recorded barrier
transitions the destination's GPU layout to new_layout and the
current_layout field is set to new_layout; the (old, new) pair of the
barrier is returned alongside. -/
def change_image_layout (st : LayoutState) (old_layout new_layout : ImageLayout) :
    LayoutState × (ImageLayout × ImageLayout) :=
  ({ st with dst_layout := new_layout, dst_current_layout := new_layout },
   (old_layout, new_layout))

/-- Embedding of Image::change_vk_image_layout
(src/vulkan_engine/image.rs lines 262-292) as used on the raw source
image handle: the barrier transitions the source's GPU layout to
new_layout; no current_layout field exists for a raw handle. -/
def change_vk_image_layout (st : LayoutState) (old_layout new_layout : ImageLayout) :
    LayoutState × (ImageLayout × ImageLayout) :=
  ({ st with src_layout := new_layout }, (old_layout, new_layout))

/-- Embedding of Image::write_from_image (src/vulkan_engine/image.rs
lines 417-502) restricted to its layout effects, in source order:
transition the source image from the caller-supplied layout to
TRANSFER_SRC_OPTIMAL, save old_layout := current_layout and transition
the destination from it to TRANSFER_DST_OPTIMAL, copy, transition the
source back to the caller-supplied layout, transition the destination
back to old_layout.  Returns the final state and the list of (old,
new) barrier transitions recorded. -/
def write_from_image (st : LayoutState) (src_image_layout : ImageLayout) :
    LayoutState × List (ImageLayout × ImageLayout) :=
  let s1 := change_vk_image_layout st src_image_layout ImageLayout.TRANSFER_SRC_OPTIMAL
  let old_layout := s1.1.dst_current_layout
  let s2 := change_image_layout s1.1 old_layout ImageLayout.TRANSFER_DST_OPTIMAL
  let s3 := change_vk_image_layout s2.1 ImageLayout.TRANSFER_SRC_OPTIMAL src_image_layout
  let s4 := change_image_layout s3.1 ImageLayout.TRANSFER_DST_OPTIMAL old_layout
  (s4.1, [s1.2, s2.2, s3.2, s4.2])

/-- Swap of a transition pair, for stating that each recorded layout
transition is later undone. -/
def swapPair (p : ImageLayout × ImageLayout) : ImageLayout × ImageLayout :=
  (p.2, p.1)

/-- C7: when the caller passes the source image's actual layout and the
destination's current_layout field is in sync with its GPU layout (the
invariant the data model imposes on the field), write_from_image ends
with the state it started from - every layout it transitions is
transitioned back by the end of the call - the current_layout field in
particular ends at its pre-call value, and the recorded transitions
are the two opening transitions followed by exactly their swaps. -/
theorem write_from_image_symmetric (st : LayoutState) (l : ImageLayout)
    (hsrc : st.src_layout = l) (hsync : st.dst_layout = st.dst_current_layout) :
    (write_from_image st l).1 = st
    ∧ (write_from_image st l).1.dst_current_layout = st.dst_current_layout
    ∧ (write_from_image st l).2
        = [(l, ImageLayout.TRANSFER_SRC_OPTIMAL),
           (st.dst_current_layout, ImageLayout.TRANSFER_DST_OPTIMAL)]
          ++ ([(l, ImageLayout.TRANSFER_SRC_OPTIMAL),
               (st.dst_current_layout, ImageLayout.TRANSFER_DST_OPTIMAL)].map swapPair) := by
  cases st with
  | mk s d c =>
      simp only at hsync
      subst hsrc hsync
      simp [write_from_image, change_image_layout, change_vk_image_layout, swapPair]

/-- Witness for C7: the theorem applied to a state whose three layouts
are all GENERAL (the state of the bloom images during the frame). -/
theorem write_from_image_symmetric_witness :
    (write_from_image
        ⟨ImageLayout.GENERAL, ImageLayout.GENERAL, ImageLayout.GENERAL⟩
        ImageLayout.GENERAL).1
      = ⟨ImageLayout.GENERAL, ImageLayout.GENERAL, ImageLayout.GENERAL⟩
    ∧ (write_from_image
        ⟨ImageLayout.GENERAL, ImageLayout.GENERAL, ImageLayout.GENERAL⟩
        ImageLayout.GENERAL).1.dst_current_layout
      = (⟨ImageLayout.GENERAL, ImageLayout.GENERAL, ImageLayout.GENERAL⟩ : LayoutState).dst_current_layout
    ∧ (write_from_image
        ⟨ImageLayout.GENERAL, ImageLayout.GENERAL, ImageLayout.GENERAL⟩
        ImageLayout.GENERAL).2
      = [(ImageLayout.GENERAL, ImageLayout.TRANSFER_SRC_OPTIMAL),
         ((⟨ImageLayout.GENERAL, ImageLayout.GENERAL, ImageLayout.GENERAL⟩ : LayoutState).dst_current_layout,
          ImageLayout.TRANSFER_DST_OPTIMAL)]
        ++ ([(ImageLayout.GENERAL, ImageLayout.TRANSFER_SRC_OPTIMAL),
             ((⟨ImageLayout.GENERAL, ImageLayout.GENERAL, ImageLayout.GENERAL⟩ : LayoutState).dst_current_layout,
              ImageLayout.TRANSFER_DST_OPTIMAL)].map swapPair) :=
  write_from_image_symmetric
    ⟨ImageLayout.GENERAL, ImageLayout.GENERAL, ImageLayout.GENERAL⟩
    ImageLayout.GENERAL rfl rfl

/-- Embedding of ash's vk::ImageSubresourceRange restricted to the
fields the mip-view loop sets. -/
structure SubresourceRange where
  base_mip_level : Nat
  level_count : Nat
  base_array_layer : Nat
  layer_count : Nat
deriving DecidableEq, Repr

/-- Embedding of the mip-view creation loop of Image::new
(src/vulkan_engine/image.rs lines 140-164): for each i in
0..mip_levels one view with base_mip_level = i and level_count =
mip_levels - i, over array layers 0..array_layers. -/
def mip_image_views (mip_levels array_layers : Nat) : List SubresourceRange :=
  (List.range mip_levels).map fun i =>
    { base_mip_level := i, level_count := mip_levels - i,
      base_array_layer := 0, layer_count := array_layers }

/-- C9: construction with mip level count n produces exactly n mip
views; the view at index i starts at mip i with level count n - i
(covering mips i through n-1, since i + (n - i) = n), and for n = 7
the per-view level counts are 7,6,5,4,3,2,1 in order. -/
theorem mip_views_structure (n a i : Nat) (h : i < n) :
    (mip_image_views n a).length = n
    ∧ (mip_image_views n a)[i]?
        = some { base_mip_level := i, level_count := n - i,
                 base_array_layer := 0, layer_count := a }
    ∧ i + (n - i) = n
    ∧ (mip_image_views 7 a).map SubresourceRange.level_count = [7, 6, 5, 4, 3, 2, 1] := by
  refine ⟨by simp [mip_image_views], ?_, by omega, ?_⟩
  · simp [mip_image_views, List.getElem?_map, List.getElem?_range, h]
  · rfl

/-- Witness for C9: the theorem applied at n = 7 mip levels, one array
layer, view index 0. -/
theorem mip_views_structure_witness :
    (mip_image_views 7 1).length = 7
    ∧ (mip_image_views 7 1)[0]?
        = some { base_mip_level := 0, level_count := 7 - 0,
                 base_array_layer := 0, layer_count := 1 }
    ∧ 0 + (7 - 0) = 7
    ∧ (mip_image_views 7 1).map SubresourceRange.level_count = [7, 6, 5, 4, 3, 2, 1] :=
  mip_views_structure 7 1 0 (by decide)

/-- Model of a Buffer (src/vulkan_engine/buffer.rs lines 11-19) for the
staged-transfer claim: the logical size (data_size), the size of the
memory block the allocator granted (allocated_size, the source's
block.size()), and the block's byte contents.  The external allocator
(gpu_alloc crate) and the driver's memory requirements are modelled as
granting a block of exactly the requested size. -/
structure MBuffer where
  data_size : Nat
  allocated_size : Nat
  mem : List Nat
deriving DecidableEq, Repr

/-- Byte splice into a memory block at an offset, modelling
MemoryBlock::write_bytes of the allocator. -/
def writeBytes (mem : List Nat) (offset : Nat) (bytes : List Nat) : List Nat :=
  mem.take offset ++ bytes ++ mem.drop (offset + bytes.length)

/-- Embedding of Buffer::new (src/vulkan_engine/buffer.rs lines 36-105)
under the exact-size allocator model: a block of the requested size. -/
def buffer_new (size : Nat) : MBuffer :=
  { data_size := size, allocated_size := size, mem := List.replicate size 0 }

/-- Embedding of Buffer::write (lines 107-117): direct host write of
the payload bytes into the block at the given offset. -/
def buffer_write (b : MBuffer) (offset : Nat) (data : List Nat) : MBuffer :=
  { b with mem := writeBytes b.mem offset data }

/-- Embedding of Buffer::write_to_vram (lines 119-171): a staging
buffer of the destination's data_size is created and filled with the
payload at offset 0, then one copy region of the payload's byte length
from staging offset 0 to destination offset `offset` is submitted and
waited on, after which the staging buffer is freed. -/
def write_to_vram (b : MBuffer) (offset : Nat) (data : List Nat) : MBuffer :=
  let staging := buffer_write (buffer_new b.data_size) 0 data
  { b with mem := writeBytes b.mem offset ((staging.mem.drop 0).take data.length) }

/-- Embedding of Buffer::read (lines 173-188): data_size bytes of the
block starting at the given offset. -/
def buffer_read (b : MBuffer) (offset : Nat) : List Nat :=
  (b.mem.drop offset).take b.data_size

/-- Embedding of Buffer::read_from_vram (lines 190-239): a staging
buffer of the source block's size is created, one copy region of that
size from source offset `offset` to staging offset 0 is submitted and
waited on, and the staging buffer is then read at offset 0. -/
def read_from_vram (b : MBuffer) (offset : Nat) : List Nat :=
  let staging := buffer_new b.allocated_size
  let staging :=
    { staging with
      mem := writeBytes staging.mem 0 ((b.mem.drop offset).take b.allocated_size) }
  buffer_read staging 0

/-- C5: for a buffer whose block has exactly the logical size (the
exact-size allocator model) and a payload whose byte length equals
that logical size, writing through the staged VRAM upload path and
reading back through the staged download path returns exactly the
payload. -/
theorem vram_roundtrip (b : MBuffer) (payload : List Nat)
    (hlen : payload.length = b.data_size)
    (halloc : b.allocated_size = b.data_size)
    (hmem : b.mem.length = b.data_size) :
    read_from_vram (write_to_vram b 0 payload) 0 = payload := by
  cases b with
  | mk S A mem =>
      simp only at hlen halloc hmem
      subst halloc
      subst hlen
      simp [read_from_vram, write_to_vram, buffer_new, buffer_write, buffer_read,
        writeBytes, hmem, List.drop_eq_nil_of_le, List.take_length]

/-- Witness for C5: a three-byte buffer with stale contents, uploaded
and downloaded. -/
theorem vram_roundtrip_witness :
    read_from_vram (write_to_vram ⟨3, 3, [9, 9, 9]⟩ 0 [1, 2, 3]) 0 = [1, 2, 3] :=
  vram_roundtrip ⟨3, 3, [9, 9, 9]⟩ [1, 2, 3] rfl rfl rfl

/-- Embedding of ash's vk::DescriptorSetLayoutBinding restricted to the
fields the descriptor code consults; descriptor_type is an abstract
numeric code. -/
structure LayoutBinding where
  binding : Nat
  descriptor_type : Nat
  descriptor_count : Nat
deriving DecidableEq, Repr

/-- Embedding of one vk::WriteDescriptorSet as update_descriptor_set
builds it: destination set handle, destination binding, the resolved
descriptor type, and whether buffer/image info lists were attached. -/
structure WriteDescriptorSet where
  dst_set : Nat
  dst_binding : Nat
  descriptor_type : Nat
  has_buffer_info : Bool
  has_image_info : Bool
deriving DecidableEq, Repr

/-- Model of DescriptorSet (src/vulkan_engine/descriptor.rs lines
62-68): the allocated set handles (abstract ids), one binding list per
created layout, and bindings_info, the binding list stored at
construction. -/
structure MDescriptorSet where
  descriptor_set : List Nat
  descriptor_set_layout : List (List LayoutBinding)
  bindings_info : List LayoutBinding
deriving DecidableEq, Repr

/-- Embedding of DescriptorSet::new (src/vulkan_engine/descriptor.rs
lines 82-121): one layout and one set allocated from the fresh pool;
bindings_info is set to the construction bindings. -/
def descriptor_set_new (bindings : List LayoutBinding) : MDescriptorSet :=
  { descriptor_set := [0], descriptor_set_layout := [bindings],
    bindings_info := bindings }

/-- Embedding of DescriptorSet::create_another_set (lines 123-151): a
layout built from the supplied bindings and a newly allocated set
handle are appended; no other field is touched - in particular
bindings_info is left as constructed. -/
def create_another_set (s : MDescriptorSet) (bindings : List LayoutBinding) :
    MDescriptorSet :=
  { s with
    descriptor_set_layout := s.descriptor_set_layout ++ [bindings],
    descriptor_set := s.descriptor_set ++ [s.descriptor_set.length] }

/-- Embedding of DescriptorSet::update_descriptor_set (lines 153-178):
exactly one write is built; its destination set is
descriptor_set[dst_set], its descriptor type is
bindings_info[dst_binding].descriptor_type, and the buffer/image info
lists are attached when supplied.  Out-of-bounds indexing panics in
the source and is modelled by none. -/
def update_descriptor_set (s : MDescriptorSet) (dst_set dst_binding : Nat)
    (has_buffer_info has_image_info : Bool) : Option (List WriteDescriptorSet) :=
  match s.descriptor_set[dst_set]?, s.bindings_info[dst_binding]? with
  | some setHandle, some binfo =>
      some [{ dst_set := setHandle, dst_binding := dst_binding,
              descriptor_type := binfo.descriptor_type,
              has_buffer_info := has_buffer_info, has_image_info := has_image_info }]
  | _, _ => none

/-- A DescriptorSet after construction from `b0` followed by one
create_another_set call per element of `adds`, in order. -/
def buildDescriptorSet (b0 : List LayoutBinding) (adds : List (List LayoutBinding)) :
    MDescriptorSet :=
  adds.foldl create_another_set (descriptor_set_new b0)

theorem foldl_create_another_set_bindings_info (adds : List (List LayoutBinding))
    (s : MDescriptorSet) :
    (adds.foldl create_another_set s).bindings_info = s.bindings_info := by
  induction adds generalizing s with
  | nil => rfl
  | cons a rest ih =>
      rw [List.foldl_cons, ih]
      rfl

/-- C10: after any sequence of create_another_set calls the stored
bindings_info is still the list supplied to DescriptorSet::new, and an
update_descriptor_set on any in-range set index and binding index
issues exactly one write whose descriptor type is resolved from that
original list, indexed by the binding index alone - in particular a
write targeting an appended set (set index > 0) still takes its type
from the first set's bindings. -/
theorem descriptor_type_from_first_bindings (b0 : List LayoutBinding)
    (adds : List (List LayoutBinding)) (s i : Nat) (hbuf himg : Bool)
    (hs : s < (buildDescriptorSet b0 adds).descriptor_set.length)
    (hi : i < b0.length) :
    (buildDescriptorSet b0 adds).bindings_info = b0
    ∧ (update_descriptor_set (buildDescriptorSet b0 adds) s i hbuf himg).map
        List.length = some 1
    ∧ (update_descriptor_set (buildDescriptorSet b0 adds) s i hbuf himg).map
        (List.map WriteDescriptorSet.descriptor_type)
        = (b0[i]?).map fun binfo => [binfo.descriptor_type] := by
  have hbi : (buildDescriptorSet b0 adds).bindings_info = b0 :=
    foldl_create_another_set_bindings_info adds (descriptor_set_new b0)
  refine ⟨hbi, ?_, ?_⟩ <;>
    rw [update_descriptor_set, hbi, List.getElem?_eq_getElem hs,
      List.getElem?_eq_getElem hi] <;>
    simp

/-- Witness for C10: a set constructed with two bindings of types 5 and
3, one appended set with a binding of type 9; the update on the
appended set (index 1) at binding 0 issues one write of type 5, from
the construction-time list. -/
theorem descriptor_type_from_first_bindings_witness :
    (buildDescriptorSet [⟨0, 5, 1⟩, ⟨1, 3, 2⟩] [[⟨0, 9, 4⟩]]).bindings_info
        = [⟨0, 5, 1⟩, ⟨1, 3, 2⟩]
    ∧ (update_descriptor_set (buildDescriptorSet [⟨0, 5, 1⟩, ⟨1, 3, 2⟩] [[⟨0, 9, 4⟩]])
        1 0 false true).map List.length = some 1
    ∧ (update_descriptor_set (buildDescriptorSet [⟨0, 5, 1⟩, ⟨1, 3, 2⟩] [[⟨0, 9, 4⟩]])
        1 0 false true).map (List.map WriteDescriptorSet.descriptor_type)
        = (([⟨0, 5, 1⟩, ⟨1, 3, 2⟩] : List LayoutBinding)[0]?).map
            fun binfo => [binfo.descriptor_type] :=
  descriptor_type_from_first_bindings [⟨0, 5, 1⟩, ⟨1, 3, 2⟩] [[⟨0, 9, 4⟩]]
    1 0 false true (by decide) (by decide)

end VulkanBloom
